import Mathlib

/-!
Verification of the PromptGenie Feishu sync module (`src-tauri/src/feishu_sync.rs`).

The Rust module is shallowly embedded below:
* `PromptRecord`, `SyncPlan`, `SyncResult`, `FeishuConfig`, `FeishuSyncError`
  mirror the corresponding Rust structs and enum.
* `chrono::DateTime<Utc>` timestamps are modelled as `Int` nanoseconds since
  the Unix epoch (chrono stores nanosecond precision); `timestamp_millis` is
  floor division by 10^6 as in chrono, and `from_timestamp_millis` rejects
  milliseconds outside the chrono year range `-262144..=262143` exactly as
  chrono does.
* `serde_json::Value` is modelled by `JsonValue`; JSON objects are association
  lists looked up by first key occurrence (parsed JSON objects have unique keys).
* Network effects are passed in as oracle arguments: the body the server would
  return for each successive request.
-/

set_option maxHeartbeats 1000000

namespace FeishuSync

/-- Model of `serde_json::Value` (integer numbers only: every number the module
reads or writes goes through `as_i64` / `json!(i64)`). -/
inductive JsonValue where
  | null
  | bool (b : Bool)
  | num (n : Int)
  | str (s : String)
  | arr (xs : List JsonValue)
  | obj (fields : List (String × JsonValue))

namespace JsonValue

/-- Rust `Value::as_str`. -/
def as_str : JsonValue → Option String
  | .str s => some s
  | _ => none

/-- Rust `Value::as_i64`: an integer number only when it is representable as
an `i64` (a `u64` beyond `i64::MAX`, or a float, yields `None`). -/
def as_i64 : JsonValue → Option Int
  | .num n =>
    if -9223372036854775808 ≤ n ∧ n ≤ 9223372036854775807 then some n else none
  | _ => none

/-- Rust `Value::as_object` (the field map of an object). -/
def as_obj : JsonValue → Option (List (String × JsonValue))
  | .obj fs => some fs
  | _ => none

/-- Rust `Value::get(key)` on a JSON value: only objects yield fields. -/
def get (v : JsonValue) (key : String) : Option JsonValue :=
  match v with
  | .obj fs => (fs.find? (fun p => p.1 == key)).map (fun p => p.2)
  | _ => none

end JsonValue

/-- Rust `Map::get` on a parsed JSON object field map. -/
def lookupField (fs : List (String × JsonValue)) (key : String) : Option JsonValue :=
  (fs.find? (fun p => p.1 == key)).map (fun p => p.2)

/-- Lowercase hex digit, as in the serde_json string escape table. -/
def hexDigit (n : Nat) : Char :=
  "0123456789abcdef".data.getD n '0'

/-- serde_json escaping of one character inside a JSON string literal. -/
def escapeChar (c : Char) : String :=
  if c = '"' then "\\\""
  else if c = '\\' then "\\\\"
  else if c = '\x08' then "\\b"
  else if c = '\x09' then "\\t"
  else if c = '\x0a' then "\\n"
  else if c = '\x0c' then "\\f"
  else if c = '\x0d' then "\\r"
  else if c.toNat < 32 then
    String.mk ['\\', 'u', '0', '0', hexDigit (c.toNat / 16), hexDigit (c.toNat % 16)]
  else String.singleton c

/-- serde_json rendering of a JSON string literal. -/
def renderJsonString (s : String) : String :=
  "\"" ++ String.join (s.data.map escapeChar) ++ "\""

mutual

/-- The compact `Display` of `serde_json::Value`, used where a decode error
message interpolates the offending value. -/
def JsonValue.render : JsonValue → String
  | .null => "null"
  | .bool true => "true"
  | .bool false => "false"
  | .num n => toString n
  | .str s => renderJsonString s
  | .arr xs => "[" ++ renderElems xs ++ "]"
  | .obj fs => "\x7b" ++ renderFields fs ++ "\x7d"

/-- Comma-separated rendering of JSON array elements. -/
def renderElems : List JsonValue → String
  | [] => ""
  | [x] => x.render
  | x :: xs => x.render ++ "," ++ renderElems xs

/-- Comma-separated rendering of JSON object entries. -/
def renderFields : List (String × JsonValue) → String
  | [] => ""
  | [(k, v)] => renderJsonString k ++ ":" ++ v.render
  | (k, v) :: fs => renderJsonString k ++ ":" ++ v.render ++ "," ++ renderFields fs

end

/-- Rust `chrono::DateTime::timestamp_millis` on a timestamp held as
nanoseconds since the epoch: truncation toward minus infinity to milliseconds. -/
def timestampMillis (ns : Int) : Int := Int.fdiv ns 1000000

/-- The smallest millisecond count a `chrono::DateTime<Utc>` can hold:
midnight of `-262144-01-01` (the `NaiveDate` year range is
`-262144..=262143`, from the 19-bit year field). -/
def chronoMinMillis : Int := -8334632937600000

/-- The largest millisecond count a `chrono::DateTime<Utc>` can hold: the
last millisecond of `262143-12-31` (86399 seconds after midnight of day
95026601 since the epoch; 8210298412799 is the documented largest valid
second count of `from_timestamp`). -/
def chronoMaxMillis : Int := 8210298412799999

/-- Rust `chrono::DateTime::from_timestamp_millis`: `None` on an
out-of-range number of milliseconds. -/
def fromTimestampMillis (ms : Int) : Option Int :=
  if chronoMinMillis ≤ ms ∧ ms ≤ chronoMaxMillis then some (ms * 1000000) else none

/-- A nanosecond timestamp representable by a `chrono::DateTime<Utc>` (its
millisecond floor lies in the chrono range).  Every `DateTime<Utc>` value a
Rust `PromptRecord` can carry satisfies this. -/
def chronoRepresentable (ns : Int) : Prop :=
  chronoMinMillis * 1000000 ≤ ns ∧ ns ≤ chronoMaxMillis * 1000000 + 999999

/-- Rust struct `PromptRecord`; `created_at`/`updated_at`/`last_used` are
nanoseconds since the epoch. -/
structure PromptRecord where
  id : String
  title : String
  content : String
  tags : String
  is_favorite : Bool
  created_at : Int
  updated_at : Int
  last_used : Option Int
  record_id : Option String
deriving DecidableEq, Repr

/-- Rust struct `SyncPlan`. -/
structure SyncPlan where
  to_create_local : List PromptRecord
  to_update_local : List PromptRecord
  to_create_remote : List PromptRecord
  to_update_remote : List (String × PromptRecord)
deriving DecidableEq, Repr

/-- The ids of a snapshot, in order. -/
def idsOf (rs : List PromptRecord) : List String := rs.map (fun r => r.id)

/-- Lookup in the `HashMap` the planner builds with `collect()`: successive
`insert`s mean the last record with a given id wins, hence `find?` on the
reversed list. -/
def lookupLast (rs : List PromptRecord) (i : String) : Option PromptRecord :=
  rs.reverse.find? (fun r => r.id == i)

/-- First pass of `calculate_sync_plan` (the loop over `local_records`):
returns `(to_create_remote, to_update_remote, skipped)` where `skipped`
collects the remote counterparts hitting the logged "缺少 feishu_record_id"
branch. -/
def syncPass1 (remote_records : List PromptRecord) :
    List PromptRecord → List PromptRecord × List (String × PromptRecord) × List PromptRecord
  | [] => ([], [], [])
  | l :: ls =>
    let rest := syncPass1 remote_records ls
    match lookupLast remote_records l.id with
    | none => (l :: rest.1, rest.2.1, rest.2.2)
    | some r =>
      if r.updated_at < l.updated_at then
        match r.record_id with
        | some k => (rest.1, (k, l) :: rest.2.1, rest.2.2)
        | none => (rest.1, rest.2.1, r :: rest.2.2)
      else (rest.1, rest.2.1, rest.2.2)

/-- Second pass of `calculate_sync_plan` (the loop over `remote_records`):
returns `(to_create_local, to_update_local)`. -/
def syncPass2 (local_records : List PromptRecord) :
    List PromptRecord → List PromptRecord × List PromptRecord
  | [] => ([], [])
  | r :: rs =>
    let rest := syncPass2 local_records rs
    match lookupLast local_records r.id with
    | none => (r :: rest.1, rest.2)
    | some l =>
      if l.updated_at < r.updated_at then (rest.1, r :: rest.2)
      else rest

/-- Rust `calculate_sync_plan`. -/
def calculate_sync_plan (local_records remote_records : List PromptRecord) : SyncPlan :=
  let p1 := syncPass1 remote_records local_records
  let p2 := syncPass2 local_records remote_records
  { to_create_local := p2.1
    to_update_local := p2.2
    to_create_remote := p1.1
    to_update_remote := p1.2.1 }

/-- The remote records for which `calculate_sync_plan` only logs the
"缺少 feishu_record_id" warning (the `else` branch of the update-remote case). -/
def calculate_sync_skips (local_records remote_records : List PromptRecord) : List PromptRecord :=
  (syncPass1 remote_records local_records).2.2

/-! ### Characterizations of the planner passes -/

theorem syncPass1_creates (remote_records ls) :
    (syncPass1 remote_records ls).1 =
      ls.filter (fun l => (lookupLast remote_records l.id).isNone) := by
  induction ls with
  | nil => rfl
  | cons l ls ih =>
    simp only [syncPass1, List.filter]
    cases h : lookupLast remote_records l.id with
    | none => simp [h, ih]
    | some r =>
      by_cases hu : r.updated_at < l.updated_at
      · cases hk : r.record_id <;> simp [h, hu, hk, ih]
      · simp [h, hu, ih]

theorem syncPass1_updates (remote_records ls) :
    (syncPass1 remote_records ls).2.1 =
      ls.filterMap (fun l =>
        match lookupLast remote_records l.id with
        | some r =>
          if r.updated_at < l.updated_at then
            match r.record_id with
            | some k => some (k, l)
            | none => none
          else none
        | none => none) := by
  induction ls with
  | nil => rfl
  | cons l ls ih =>
    simp only [syncPass1, List.filterMap]
    cases h : lookupLast remote_records l.id with
    | none => simp [h, ih]
    | some r =>
      by_cases hu : r.updated_at < l.updated_at
      · cases hk : r.record_id <;> simp [h, hu, hk, ih]
      · simp [h, hu, ih]

theorem syncPass1_skips (remote_records ls) :
    (syncPass1 remote_records ls).2.2 =
      ls.filterMap (fun l =>
        match lookupLast remote_records l.id with
        | some r =>
          if r.updated_at < l.updated_at then
            match r.record_id with
            | some _ => none
            | none => some r
          else none
        | none => none) := by
  induction ls with
  | nil => rfl
  | cons l ls ih =>
    simp only [syncPass1, List.filterMap]
    cases h : lookupLast remote_records l.id with
    | none => simp [h, ih]
    | some r =>
      by_cases hu : r.updated_at < l.updated_at
      · cases hk : r.record_id <;> simp [h, hu, hk, ih]
      · simp [h, hu, ih]

theorem syncPass2_creates (local_records rs) :
    (syncPass2 local_records rs).1 =
      rs.filter (fun r => (lookupLast local_records r.id).isNone) := by
  induction rs with
  | nil => rfl
  | cons r rs ih =>
    simp only [syncPass2, List.filter]
    cases h : lookupLast local_records r.id with
    | none => simp [h, ih]
    | some l =>
      by_cases hu : l.updated_at < r.updated_at <;> simp [h, hu, ih]

theorem syncPass2_updates (local_records rs) :
    (syncPass2 local_records rs).2 =
      rs.filterMap (fun r =>
        match lookupLast local_records r.id with
        | some l => if l.updated_at < r.updated_at then some r else none
        | none => none) := by
  induction rs with
  | nil => rfl
  | cons r rs ih =>
    simp only [syncPass2, List.filterMap]
    cases h : lookupLast local_records r.id with
    | none => simp [h, ih]
    | some l =>
      by_cases hu : l.updated_at < r.updated_at <;> simp [h, hu, ih]

/-! ### Lookup facts -/

theorem lookupLast_eq_none_iff (rs : List PromptRecord) (i : String) :
    lookupLast rs i = none ↔ ∀ r ∈ rs, r.id ≠ i := by
  simp [lookupLast, List.find?_eq_none]

theorem mem_of_lookupLast {rs : List PromptRecord} {i : String} {r : PromptRecord}
    (h : lookupLast rs i = some r) : r ∈ rs ∧ r.id = i := by
  have hm := List.mem_of_find?_eq_some h
  have hp := List.find?_some h
  rw [List.mem_reverse] at hm
  exact ⟨hm, by simpa using hp⟩

theorem id_inj {rs : List PromptRecord} (h : (idsOf rs).Nodup)
    {a b : PromptRecord} (ha : a ∈ rs) (hb : b ∈ rs) (hid : a.id = b.id) : a = b := by
  induction rs with
  | nil => cases ha
  | cons x xs ih =>
    rw [idsOf, List.map_cons, List.nodup_cons] at h
    rcases List.mem_cons.mp ha with ha1 | ha1 <;> rcases List.mem_cons.mp hb with hb1 | hb1
    · rw [ha1, hb1]
    · exfalso; apply h.1; rw [← ha1, hid]; exact List.mem_map_of_mem (fun r => r.id) hb1
    · exfalso; apply h.1; rw [← hb1, ← hid]; exact List.mem_map_of_mem (fun r => r.id) ha1
    · exact ih h.2 ha1 hb1

theorem lookupLast_self {rs : List PromptRecord} (h : (idsOf rs).Nodup)
    {r : PromptRecord} (hm : r ∈ rs) : lookupLast rs r.id = some r := by
  cases hfind : lookupLast rs r.id with
  | none =>
    exact absurd rfl ((lookupLast_eq_none_iff rs r.id).mp hfind r hm)
  | some x =>
    obtain ⟨hx, hxid⟩ := mem_of_lookupLast hfind
    exact congrArg some (id_inj h hx hm hxid)

theorem filter_id_single {rs : List PromptRecord} (h : (idsOf rs).Nodup)
    {r : PromptRecord} (hm : r ∈ rs) :
    rs.filter (fun x => x.id == r.id) = [r] := by
  induction rs with
  | nil => cases hm
  | cons x xs ih =>
    rw [idsOf, List.map_cons, List.nodup_cons] at h
    rcases List.mem_cons.mp hm with rfl | hm
    · have hnil : xs.filter (fun x₀ => x₀.id == r.id) = [] := by
        rw [List.filter_eq_nil_iff]
        intro a hax hbeq
        exact h.1 ((eq_of_beq hbeq) ▸ List.mem_map_of_mem (fun t => t.id) hax)
      simp [List.filter, hnil]
    · have hne : (x.id == r.id) = false := by
        by_contra hx
        have : x.id = r.id := eq_of_beq (by simpa using hx)
        exact h.1 (this ▸ List.mem_map_of_mem (fun t => t.id) hm)
      simp [List.filter, hne, ih h.2 hm]

theorem filter_id_nil {rs : List PromptRecord} {i : String}
    (h : i ∉ idsOf rs) : rs.filter (fun x => x.id == i) = [] := by
  rw [List.filter_eq_nil_iff]
  intro a ha hbeq
  exact h ((eq_of_beq hbeq) ▸ List.mem_map_of_mem (fun t => t.id) ha)

/-- Pushing a filter on the produced values inside a `filterMap`, when the
filter predicate is determined by the source element. -/
theorem filterMap_restrict {α β : Type} (g : α → Option β) (p : β → Bool) (q : α → Bool)
    (hcompat : ∀ x y, g x = some y → p y = q x) (ls : List α) :
    (ls.filterMap g).filter p = (ls.filter q).filterMap g := by
  induction ls with
  | nil => rfl
  | cons x xs ih =>
    cases hgx : g x with
    | none =>
      cases hq : q x <;>
        simp [List.filterMap_cons, List.filter_cons, hgx, hq, ih]
    | some y =>
      have hpq := hcompat x y hgx
      cases hq : q x <;>
        simp [List.filterMap_cons, List.filter_cons, hgx, hq, hpq ▸ hq, ih]

theorem filter_comm' {α : Type} (p q : α → Bool) (l : List α) :
    (l.filter p).filter q = (l.filter q).filter p := by
  induction l with
  | nil => rfl
  | cons x xs ih =>
    cases hp : p x <;> cases hq : q x <;> simp [List.filter_cons, hp, hq, ih]

/-- The `to_create_remote` entries carrying a given id. -/
theorem to_create_remote_filter (local_records remote_records : List PromptRecord) (i : String) :
    (calculate_sync_plan local_records remote_records).to_create_remote.filter
        (fun x => x.id == i) =
      (local_records.filter (fun x => x.id == i)).filter
        (fun l => (lookupLast remote_records l.id).isNone) := by
  rw [calculate_sync_plan, syncPass1_creates, filter_comm']

/-- The body of the update-remote decision for one local record
(pass 1 of `calculate_sync_plan`). -/
def updateRemoteStep (remote_records : List PromptRecord) (l : PromptRecord) :
    Option (String × PromptRecord) :=
  match lookupLast remote_records l.id with
  | some r =>
    if r.updated_at < l.updated_at then
      match r.record_id with
      | some k => some (k, l)
      | none => none
    else none
  | none => none

/-- The body of the logged-skip decision for one local record. -/
def skipStep (remote_records : List PromptRecord) (l : PromptRecord) :
    Option PromptRecord :=
  match lookupLast remote_records l.id with
  | some r =>
    if r.updated_at < l.updated_at then
      match r.record_id with
      | some _ => none
      | none => some r
    else none
  | none => none

/-- The body of the update-local decision for one remote record
(pass 2 of `calculate_sync_plan`). -/
def updateLocalStep (local_records : List PromptRecord) (r : PromptRecord) :
    Option PromptRecord :=
  match lookupLast local_records r.id with
  | some l => if l.updated_at < r.updated_at then some r else none
  | none => none

theorem updateRemoteStep_id {remote_records : List PromptRecord} {l : PromptRecord}
    {y : String × PromptRecord} (h : updateRemoteStep remote_records l = some y) :
    y.2 = l := by
  unfold updateRemoteStep at h
  repeat' split at h
  all_goals simp_all
  subst h
  rfl

theorem skipStep_id {remote_records : List PromptRecord} {l : PromptRecord}
    {y : PromptRecord} (h : skipStep remote_records l = some y) : y.id = l.id := by
  unfold skipStep at h
  split at h
  case h_2 => cases h
  case h_1 r hcl =>
    split at h
    · split at h
      · cases h
      · cases h
        exact (mem_of_lookupLast hcl).2
    · cases h

theorem updateLocalStep_id {local_records : List PromptRecord} {r : PromptRecord}
    {y : PromptRecord} (h : updateLocalStep local_records r = some y) : y = r := by
  unfold updateLocalStep at h
  repeat' split at h
  all_goals simp_all

/-- The `to_update_remote` entries whose record carries a given id. -/
theorem to_update_remote_filter (local_records remote_records : List PromptRecord) (i : String) :
    (calculate_sync_plan local_records remote_records).to_update_remote.filter
        (fun q => q.2.id == i) =
      (local_records.filter (fun x => x.id == i)).filterMap
        (updateRemoteStep remote_records) := by
  rw [calculate_sync_plan]
  show (syncPass1 remote_records local_records).2.1.filter _ = _
  rw [syncPass1_updates]
  have h1 : (local_records.filterMap fun l =>
      match lookupLast remote_records l.id with
      | some r =>
        if r.updated_at < l.updated_at then
          match r.record_id with
          | some k => some (k, l)
          | none => none
        else none
      | none => none) = local_records.filterMap (updateRemoteStep remote_records) := by
    rfl
  rw [h1]
  exact filterMap_restrict (updateRemoteStep remote_records) _ _
    (fun x y hxy => by rw [updateRemoteStep_id hxy]) local_records

/-- The logged skips whose remote record carries a given id. -/
theorem skips_filter (local_records remote_records : List PromptRecord) (i : String) :
    (calculate_sync_skips local_records remote_records).filter (fun x => x.id == i) =
      (local_records.filter (fun x => x.id == i)).filterMap
        (skipStep remote_records) := by
  rw [calculate_sync_skips, syncPass1_skips]
  have h1 : (local_records.filterMap fun l =>
      match lookupLast remote_records l.id with
      | some r =>
        if r.updated_at < l.updated_at then
          match r.record_id with
          | some _ => none
          | none => some r
        else none
      | none => none) = local_records.filterMap (skipStep remote_records) := by
    rfl
  rw [h1]
  exact filterMap_restrict (skipStep remote_records) _ _
    (fun x y hxy => by rw [skipStep_id hxy]) local_records

/-- The `to_create_local` entries carrying a given id. -/
theorem to_create_local_filter (local_records remote_records : List PromptRecord) (i : String) :
    (calculate_sync_plan local_records remote_records).to_create_local.filter
        (fun x => x.id == i) =
      (remote_records.filter (fun x => x.id == i)).filter
        (fun r => (lookupLast local_records r.id).isNone) := by
  rw [calculate_sync_plan]
  show (syncPass2 local_records remote_records).1.filter _ = _
  rw [syncPass2_creates, filter_comm']

/-- The `to_update_local` entries carrying a given id. -/
theorem to_update_local_filter (local_records remote_records : List PromptRecord) (i : String) :
    (calculate_sync_plan local_records remote_records).to_update_local.filter
        (fun x => x.id == i) =
      (remote_records.filter (fun x => x.id == i)).filterMap
        (updateLocalStep local_records) := by
  rw [calculate_sync_plan]
  show (syncPass2 local_records remote_records).2.filter _ = _
  rw [syncPass2_updates]
  have h1 : (remote_records.filterMap fun r =>
      match lookupLast local_records r.id with
      | some l => if l.updated_at < r.updated_at then some r else none
      | none => none) = remote_records.filterMap (updateLocalStep local_records) := by
    rfl
  rw [h1]
  exact filterMap_restrict (updateLocalStep local_records) _ _
    (fun x y hxy => by rw [updateLocalStep_id hxy]) remote_records

theorem to_update_remote_eq (local_records remote_records : List PromptRecord) :
    (calculate_sync_plan local_records remote_records).to_update_remote =
      local_records.filterMap (updateRemoteStep remote_records) := by
  rw [calculate_sync_plan]
  show (syncPass1 remote_records local_records).2.1 = _
  rw [syncPass1_updates]
  rfl

theorem to_update_local_eq (local_records remote_records : List PromptRecord) :
    (calculate_sync_plan local_records remote_records).to_update_local =
      remote_records.filterMap (updateLocalStep local_records) := by
  rw [calculate_sync_plan]
  show (syncPass2 local_records remote_records).2 = _
  rw [syncPass2_updates]
  rfl

theorem updateRemoteStep_spec {remote_records : List PromptRecord} {l : PromptRecord}
    {y : String × PromptRecord} (h : updateRemoteStep remote_records l = some y) :
    ∃ r, lookupLast remote_records l.id = some r ∧ r.updated_at < l.updated_at ∧
      r.record_id = some y.1 ∧ y.2 = l := by
  unfold updateRemoteStep at h
  split at h
  case h_2 => cases h
  case h_1 r hcl =>
    split at h
    case isFalse => cases h
    case isTrue hu =>
      split at h
      case h_2 => cases h
      case h_1 k hk =>
        injection h with h2
        exact ⟨r, hcl, hu, by rw [← h2]; exact hk, by rw [← h2]⟩

theorem updateLocalStep_spec {local_records : List PromptRecord} {r : PromptRecord}
    {y : PromptRecord} (h : updateLocalStep local_records r = some y) :
    ∃ l, lookupLast local_records r.id = some l ∧ l.updated_at < r.updated_at ∧ y = r := by
  unfold updateLocalStep at h
  split at h
  case h_2 => cases h
  case h_1 l hcl =>
    split at h
    case isFalse => cases h
    case isTrue hu =>
      injection h with h2
      exact ⟨l, hcl, hu, h2.symm⟩

/-- C1: for snapshots with unique ids and an id present on both sides, if the
local record is strictly newer, the plan holds exactly one remote-update for
that id, keyed by the `record_id` of the remote counterpart and carrying the local
record — or, when that key is absent, no action at all and exactly one logged
skip — and no local action; if the remote record is strictly newer, the plan
holds exactly one local-update (carrying the remote record) and no remote
action for that id. -/
theorem c1_matched_update_direction
    (local_records remote_records : List PromptRecord)
    (hl : (idsOf local_records).Nodup) (hr : (idsOf remote_records).Nodup)
    (l r : PromptRecord) (hlm : l ∈ local_records) (hrm : r ∈ remote_records)
    (hid : r.id = l.id) :
    (r.updated_at < l.updated_at →
      ((∀ k, r.record_id = some k →
          (calculate_sync_plan local_records remote_records).to_update_remote.filter
            (fun q => q.2.id == l.id) = [(k, l)])
        ∧ (r.record_id = none →
            (calculate_sync_plan local_records remote_records).to_update_remote.filter
              (fun q => q.2.id == l.id) = []
            ∧ (calculate_sync_skips local_records remote_records).filter
                (fun x => x.id == l.id) = [r])
        ∧ (calculate_sync_plan local_records remote_records).to_create_remote.filter
            (fun x => x.id == l.id) = []
        ∧ (calculate_sync_plan local_records remote_records).to_create_local.filter
            (fun x => x.id == l.id) = []
        ∧ (calculate_sync_plan local_records remote_records).to_update_local.filter
            (fun x => x.id == l.id) = []))
    ∧ (l.updated_at < r.updated_at →
      ((calculate_sync_plan local_records remote_records).to_update_local.filter
          (fun x => x.id == l.id) = [r]
        ∧ (calculate_sync_plan local_records remote_records).to_update_remote.filter
            (fun q => q.2.id == l.id) = []
        ∧ (calculate_sync_plan local_records remote_records).to_create_remote.filter
            (fun x => x.id == l.id) = []
        ∧ (calculate_sync_plan local_records remote_records).to_create_local.filter
            (fun x => x.id == l.id) = [])) := by
  have hlookr : lookupLast remote_records l.id = some r := by
    rw [← hid]; exact lookupLast_self hr hrm
  have hlookl : lookupLast local_records r.id = some l := by
    rw [hid]; exact lookupLast_self hl hlm
  have hfl : local_records.filter (fun x => x.id == l.id) = [l] := filter_id_single hl hlm
  have hfr : remote_records.filter (fun x => x.id == l.id) = [r] := by
    rw [← hid]; exact filter_id_single hr hrm
  constructor
  · intro hu
    have hnu : ¬ l.updated_at < r.updated_at := lt_asymm hu
    refine ⟨?_, ?_, ?_, ?_, ?_⟩
    · intro k hk
      rw [to_update_remote_filter, hfl]
      simp [List.filterMap, updateRemoteStep, hlookr, hu, hk]
    · intro hk
      constructor
      · rw [to_update_remote_filter, hfl]
        simp [List.filterMap, updateRemoteStep, hlookr, hu, hk]
      · rw [skips_filter, hfl]
        simp [List.filterMap, skipStep, hlookr, hu, hk]
    · rw [to_create_remote_filter, hfl]
      simp [List.filter, hlookr]
    · rw [to_create_local_filter, hfr]
      simp [List.filter, hlookl]
    · rw [to_update_local_filter, hfr]
      simp [List.filterMap, updateLocalStep, hlookl, hnu]
  · intro hu
    have hnu : ¬ r.updated_at < l.updated_at := lt_asymm hu
    refine ⟨?_, ?_, ?_, ?_⟩
    · rw [to_update_local_filter, hfr]
      simp [List.filterMap, updateLocalStep, hlookl, hu]
    · rw [to_update_remote_filter, hfl]
      simp [List.filterMap, updateRemoteStep, hlookr, hnu]
    · rw [to_create_remote_filter, hfl]
      simp [List.filter, hlookr]
    · rw [to_create_local_filter, hfr]
      simp [List.filter, hlookl]

def sampleLocal : PromptRecord :=
  { id := "a", title := "local title", content := "local content", tags := "[]"
    is_favorite := false, created_at := 2000000, updated_at := 2000000
    last_used := none, record_id := none }

def sampleRemote : PromptRecord :=
  { id := "a", title := "remote title", content := "remote content", tags := "[]"
    is_favorite := true, created_at := 1000000, updated_at := 1000000
    last_used := none, record_id := some "rec1" }

theorem c1_witness :
    (calculate_sync_plan [sampleLocal] [sampleRemote]).to_update_remote.filter
        (fun q => q.2.id == sampleLocal.id) = [("rec1", sampleLocal)]
    ∧ (calculate_sync_plan [sampleLocal] [sampleRemote]).to_update_local.filter
        (fun x => x.id == sampleLocal.id) = [] := by
  have h := c1_matched_update_direction [sampleLocal] [sampleRemote]
    (by decide) (by decide) sampleLocal sampleRemote
    (List.mem_singleton.mpr rfl) (List.mem_singleton.mpr rfl) rfl
  have h1 := h.1 (by decide)
  exact ⟨h1.1 "rec1" rfl, h1.2.2.2.2⟩

/-- C2: for snapshots with unique ids, an id present only locally yields
exactly one remote-create and nothing else in the plan (and no logged skip);
an id present only remotely yields exactly one local-create and nothing
else. -/
theorem c2_one_sided_creates
    (local_records remote_records : List PromptRecord)
    (hl : (idsOf local_records).Nodup) (hr : (idsOf remote_records).Nodup) :
    (∀ l ∈ local_records, l.id ∉ idsOf remote_records →
      (calculate_sync_plan local_records remote_records).to_create_remote.filter
          (fun x => x.id == l.id) = [l]
      ∧ (calculate_sync_plan local_records remote_records).to_update_remote.filter
          (fun q => q.2.id == l.id) = []
      ∧ (calculate_sync_plan local_records remote_records).to_create_local.filter
          (fun x => x.id == l.id) = []
      ∧ (calculate_sync_plan local_records remote_records).to_update_local.filter
          (fun x => x.id == l.id) = []
      ∧ (calculate_sync_skips local_records remote_records).filter
          (fun x => x.id == l.id) = [])
    ∧ (∀ r ∈ remote_records, r.id ∉ idsOf local_records →
      (calculate_sync_plan local_records remote_records).to_create_local.filter
          (fun x => x.id == r.id) = [r]
      ∧ (calculate_sync_plan local_records remote_records).to_update_local.filter
          (fun x => x.id == r.id) = []
      ∧ (calculate_sync_plan local_records remote_records).to_create_remote.filter
          (fun x => x.id == r.id) = []
      ∧ (calculate_sync_plan local_records remote_records).to_update_remote.filter
          (fun q => q.2.id == r.id) = []
      ∧ (calculate_sync_skips local_records remote_records).filter
          (fun x => x.id == r.id) = []) := by
  constructor
  · intro l hlm hnot
    have hlook : lookupLast remote_records l.id = none :=
      (lookupLast_eq_none_iff remote_records l.id).mpr
        (fun x hx hxe => hnot (hxe ▸ List.mem_map_of_mem (fun t => t.id) hx))
    have hfl : local_records.filter (fun x => x.id == l.id) = [l] := filter_id_single hl hlm
    have hfr : remote_records.filter (fun x => x.id == l.id) = [] := filter_id_nil hnot
    refine ⟨?_, ?_, ?_, ?_, ?_⟩
    · rw [to_create_remote_filter, hfl]; simp [List.filter, hlook]
    · rw [to_update_remote_filter, hfl]
      simp [List.filterMap, updateRemoteStep, hlook]
    · rw [to_create_local_filter, hfr]; rfl
    · rw [to_update_local_filter, hfr]; rfl
    · rw [skips_filter, hfl]; simp [List.filterMap, skipStep, hlook]
  · intro r hrm hnot
    have hlook : lookupLast local_records r.id = none :=
      (lookupLast_eq_none_iff local_records r.id).mpr
        (fun x hx hxe => hnot (hxe ▸ List.mem_map_of_mem (fun t => t.id) hx))
    have hfr : remote_records.filter (fun x => x.id == r.id) = [r] := filter_id_single hr hrm
    have hfl : local_records.filter (fun x => x.id == r.id) = [] := filter_id_nil hnot
    refine ⟨?_, ?_, ?_, ?_, ?_⟩
    · rw [to_create_local_filter, hfr]; simp [List.filter, hlook]
    · rw [to_update_local_filter, hfr]
      simp [List.filterMap, updateLocalStep, hlook]
    · rw [to_create_remote_filter, hfl]; rfl
    · rw [to_update_remote_filter, hfl]; rfl
    · rw [skips_filter, hfl]; rfl

def sampleRemoteB : PromptRecord :=
  { id := "b", title := "remote b", content := "remote content b", tags := "[]"
    is_favorite := false, created_at := 1000000, updated_at := 1000000
    last_used := none, record_id := some "rec2" }

theorem c2_witness :
    (calculate_sync_plan [sampleLocal] [sampleRemoteB]).to_create_remote.filter
        (fun x => x.id == sampleLocal.id) = [sampleLocal]
    ∧ (calculate_sync_plan [sampleLocal] [sampleRemoteB]).to_create_local.filter
        (fun x => x.id == sampleRemoteB.id) = [sampleRemoteB] := by
  have h := c2_one_sided_creates [sampleLocal] [sampleRemoteB] (by decide) (by decide)
  exact ⟨(h.1 sampleLocal (List.mem_singleton.mpr rfl) (by decide)).1,
    (h.2 sampleRemoteB (List.mem_singleton.mpr rfl) (by decide)).1⟩

/-- C3: for snapshots with unique ids, a matching id with equal `updated_at`
produces no action in any of the four plan lists (and no logged skip), and no
id ever appears both in `to_update_local` and in `to_update_remote` of the same
plan. -/
theorem c3_ties_and_no_double_update
    (local_records remote_records : List PromptRecord)
    (hl : (idsOf local_records).Nodup) (hr : (idsOf remote_records).Nodup) :
    (∀ l ∈ local_records, ∀ r ∈ remote_records, r.id = l.id →
      l.updated_at = r.updated_at →
      (calculate_sync_plan local_records remote_records).to_create_local.filter
          (fun x => x.id == l.id) = []
      ∧ (calculate_sync_plan local_records remote_records).to_update_local.filter
          (fun x => x.id == l.id) = []
      ∧ (calculate_sync_plan local_records remote_records).to_create_remote.filter
          (fun x => x.id == l.id) = []
      ∧ (calculate_sync_plan local_records remote_records).to_update_remote.filter
          (fun q => q.2.id == l.id) = []
      ∧ (calculate_sync_skips local_records remote_records).filter
          (fun x => x.id == l.id) = [])
    ∧ (∀ q ∈ (calculate_sync_plan local_records remote_records).to_update_remote,
        ∀ x ∈ (calculate_sync_plan local_records remote_records).to_update_local,
        q.2.id ≠ x.id) := by
  constructor
  · intro l hlm r hrm hid hteq
    have hlookr : lookupLast remote_records l.id = some r := by
      rw [← hid]; exact lookupLast_self hr hrm
    have hlookl : lookupLast local_records r.id = some l := by
      rw [hid]; exact lookupLast_self hl hlm
    have hfl : local_records.filter (fun x => x.id == l.id) = [l] := filter_id_single hl hlm
    have hfr : remote_records.filter (fun x => x.id == l.id) = [r] := by
      rw [← hid]; exact filter_id_single hr hrm
    have hnu1 : ¬ r.updated_at < l.updated_at := by rw [hteq]; exact lt_irrefl _
    have hnu2 : ¬ l.updated_at < r.updated_at := by rw [hteq]; exact lt_irrefl _
    refine ⟨?_, ?_, ?_, ?_, ?_⟩
    · rw [to_create_local_filter, hfr]; simp [List.filter, hlookl]
    · rw [to_update_local_filter, hfr]
      simp [List.filterMap, updateLocalStep, hlookl, hnu2]
    · rw [to_create_remote_filter, hfl]; simp [List.filter, hlookr]
    · rw [to_update_remote_filter, hfl]
      simp [List.filterMap, updateRemoteStep, hlookr, hnu1]
    · rw [skips_filter, hfl]
      simp [List.filterMap, skipStep, hlookr, hnu1]
  · intro q hq x hx heq
    rw [to_update_remote_eq] at hq
    rw [to_update_local_eq] at hx
    obtain ⟨l, hlm, hfq⟩ := List.mem_filterMap.mp hq
    obtain ⟨r2, hr2m, hgx⟩ := List.mem_filterMap.mp hx
    obtain ⟨r, hclr, hur, _, hy2⟩ := updateRemoteStep_spec hfq
    obtain ⟨l2, hcll, hul, rfl⟩ := updateLocalStep_spec hgx
    rw [hy2] at heq
    obtain ⟨hrmem, hrid⟩ := mem_of_lookupLast hclr
    obtain ⟨hl2mem, hl2id⟩ := mem_of_lookupLast hcll
    have hrr2 : r = x := id_inj hr hrmem hr2m (by rw [hrid, heq])
    have hl2l : l2 = l := id_inj hl hl2mem hlm (by rw [hl2id, ← heq])
    rw [hrr2] at hur
    rw [hl2l] at hul
    exact absurd hul (lt_asymm hur)

def sampleRemoteEq : PromptRecord :=
  { id := "a", title := "remote title", content := "remote content", tags := "[]"
    is_favorite := true, created_at := 1000000, updated_at := 2000000
    last_used := none, record_id := some "rec1" }

theorem c3_witness :
    (calculate_sync_plan [sampleLocal] [sampleRemoteEq]).to_update_local.filter
        (fun x => x.id == sampleLocal.id) = []
    ∧ (calculate_sync_plan [sampleLocal] [sampleRemoteEq]).to_update_remote.filter
        (fun q => q.2.id == sampleLocal.id) = [] := by
  have h := (c3_ties_and_no_double_update [sampleLocal] [sampleRemoteEq]
    (by decide) (by decide)).1 sampleLocal (List.mem_singleton.mpr rfl)
    sampleRemoteEq (List.mem_singleton.mpr rfl) rfl rfl
  exact ⟨h.2.1, h.2.2.2.1⟩

/-! ### Field codec: `parse_record_from_feishu` and the field bag built by
`create_remote_records` / `update_remote_records` -/

/-- The closure `get_text` inside `parse_record_from_feishu`. -/
def get_text (fields : List (String × JsonValue)) (key : String) : Except String String :=
  match (lookupField fields key).bind JsonValue.as_str with
  | some s => .ok s
  | none => .error ("字段 '" ++ key ++ "' 不存在或类型不为文本")

/-- The closure `get_timestamp_from_field` inside `parse_record_from_feishu`. -/
def get_timestamp_from_field (fields : List (String × JsonValue)) (key : String) :
    Except String Int :=
  match lookupField fields key with
  | none => .error ("时间戳字段 '" ++ key ++ "' 不存在")
  | some v =>
    match v.as_i64 with
    | none => .error ("时间戳字段 '" ++ key ++ "' 的值 '" ++ v.render ++ "' 不是有效数字")
    | some timestamp_ms =>
      match fromTimestampMillis timestamp_ms with
      | some t => .ok t
      | none => .error ("无法将毫秒时间戳 '" ++ toString timestamp_ms ++ "' 转换为日期")

/-- The closure `get_optional_timestamp` inside `parse_record_from_feishu`. -/
def get_optional_timestamp (fields : List (String × JsonValue)) (key : String) : Option Int :=
  match get_timestamp_from_field fields key with
  | .ok ts => some ts
  | .error _ => none

/-- The field-parsing tail of `parse_record_from_feishu`, once `record_id` and
the `fields` object have been extracted. -/
def parse_fields (record_id : String) (fields : List (String × JsonValue)) :
    Except String PromptRecord :=
  match get_text fields "id" with
  | .error e => .error e
  | .ok id =>
    match get_timestamp_from_field fields "createdAt" with
    | .error e => .error e
    | .ok created_at =>
      match get_timestamp_from_field fields "updatedAt" with
      | .error e => .error e
      | .ok updated_at =>
        .ok { id := id
              title := match get_text fields "title" with
                | .ok s => s
                | .error _ => "未命名"
              content := match get_text fields "content" with
                | .ok s => s
                | .error _ => ""
              tags := match get_text fields "tags" with
                | .ok s => s
                | .error _ => "[]"
              is_favorite := match (lookupField fields "isFavorite").bind JsonValue.as_str with
                | some s => s == "是"
                | none => false
              created_at := created_at
              updated_at := updated_at
              last_used := get_optional_timestamp fields "lastUsed"
              record_id := some record_id }

/-- Rust `parse_record_from_feishu`. -/
def parse_record_from_feishu (item : JsonValue) : Except String PromptRecord :=
  match (item.get "record_id").bind JsonValue.as_str with
  | none => .error "缺少 record_id"
  | some record_id =>
    match (item.get "fields").bind JsonValue.as_obj with
    | none => .error ("记录 " ++ record_id ++ " 缺少 fields 对象")
    | some fields => parse_fields record_id fields

/-- The field bag built for one record by `create_remote_records` (the same
bag is built by `update_remote_records`): text fields as JSON strings,
`isFavorite` as the single-select token "是"/"否", timestamps as epoch
milliseconds, `lastUsed` only when present. -/
def feishu_fields_of_record (record : PromptRecord) : List (String × JsonValue) :=
  [("id", .str record.id),
   ("title", .str record.title),
   ("content", .str record.content),
   ("tags", .str record.tags),
   ("isFavorite", .str (if record.is_favorite then "是" else "否")),
   ("createdAt", .num (timestampMillis record.created_at)),
   ("updatedAt", .num (timestampMillis record.updated_at))]
  ++ (match record.last_used with
      | some t => [("lastUsed", .num (timestampMillis t))]
      | none => [])

/-- A remote list item as the Feishu API returns it: the remote record id
plus the field bag. -/
def feishuItem (record_id : String) (fields : List (String × JsonValue)) : JsonValue :=
  .obj [("record_id", .str record_id), ("fields", .obj fields)]

theorem parse_feishuItem (record_id : String) (fields : List (String × JsonValue)) :
    parse_record_from_feishu (feishuItem record_id fields) = parse_fields record_id fields := rfl

def c5Rec : PromptRecord :=
  { id := "a", title := "t", content := "c", tags := "[]", is_favorite := false
    created_at := 500000, updated_at := 0, last_used := none, record_id := none }

/-- C5 counterexample: a record whose `created_at` is 500000 nanoseconds
(half a millisecond) after the epoch encodes to `createdAt = 0` and decodes
back with `created_at = 0`, not 500000 — the round trip is not exact, because
`timestamp_millis` truncates sub-millisecond precision. -/
theorem c5_counterexample :
    (parse_record_from_feishu (feishuItem "rec1" (feishu_fields_of_record c5Rec))).toOption.map
        PromptRecord.created_at = some 0
    ∧ c5Rec.created_at = 500000
    ∧ (500000 : Int) ≠ 0 := by
  refine ⟨rfl, rfl, by decide⟩

/-- Round trip of one timestamp through the codec: a whole-millisecond,
chrono-representable nanosecond count survives encode (`timestamp_millis`)
followed by decode (`as_i64`, then `from_timestamp_millis`). -/
theorem timestamp_roundtrip (n : Int) (hdvd : (1000000 : Int) ∣ n)
    (hrep : chronoRepresentable n) :
    JsonValue.as_i64 (.num (timestampMillis n)) = some (timestampMillis n)
    ∧ fromTimestampMillis (timestampMillis n) = some n := by
  obtain ⟨k, rfl⟩ := hdvd
  have hk : timestampMillis (1000000 * k) = k := by
    rw [timestampMillis, Int.mul_fdiv_cancel_left _ (by norm_num)]
  obtain ⟨hr1, hr2⟩ := hrep
  simp only [chronoMinMillis, chronoMaxMillis] at hr1 hr2
  norm_num at hr1 hr2
  rw [hk]
  constructor
  · show (if -9223372036854775808 ≤ k ∧ k ≤ 9223372036854775807 then some k else none)
      = some k
    rw [if_pos ⟨by omega, by omega⟩]
  · show (if chronoMinMillis ≤ k ∧ k ≤ chronoMaxMillis then some (k * 1000000) else none)
      = some (1000000 * k)
    rw [if_pos ⟨by simp only [chronoMinMillis]; omega, by simp only [chronoMaxMillis]; omega⟩,
      Int.mul_comm]

/-- C5 (amended): encoding a record into the remote field bag and decoding the
bag (with a supplied remote identifier) reproduces `id`, `title`, `content`,
`tags`, `is_favorite`, `created_at`, `updated_at`, and `last_used` (when
present) exactly, provided every timestamp of the record is a whole number of
milliseconds (the encoder truncates to milliseconds) and lies in the
chrono-representable range (as every timestamp a Rust `DateTime<Utc>` can
hold does). -/
theorem c5_roundtrip_amended (r : PromptRecord) (rid : String)
    (h1 : (1000000 : Int) ∣ r.created_at) (h2 : (1000000 : Int) ∣ r.updated_at)
    (h3 : ∀ t, r.last_used = some t → (1000000 : Int) ∣ t)
    (h4 : chronoRepresentable r.created_at) (h5 : chronoRepresentable r.updated_at)
    (h6 : ∀ t, r.last_used = some t → chronoRepresentable t) :
    parse_record_from_feishu (feishuItem rid (feishu_fields_of_record r))
      = .ok { r with record_id := some rid } := by
  obtain ⟨i, ti, co, ta, fav, ca, ua, lu, rid0⟩ := r
  simp only [PromptRecord.created_at] at h1 h4
  simp only [PromptRecord.updated_at] at h2 h5
  simp only [PromptRecord.last_used] at h3 h6
  obtain ⟨hca1, hca2⟩ := timestamp_roundtrip ca h1 h4
  obtain ⟨hua1, hua2⟩ := timestamp_roundtrip ua h2 h5
  rw [parse_feishuItem]
  cases lu with
  | none =>
    cases fav <;>
      simp [parse_fields, feishu_fields_of_record, get_text, get_timestamp_from_field,
        get_optional_timestamp, lookupField, JsonValue.as_str, List.find?,
        hca1, hca2, hua1, hua2]
  | some t =>
    obtain ⟨ht1, ht2⟩ := timestamp_roundtrip t (h3 t rfl) (h6 t rfl)
    cases fav <;>
      simp [parse_fields, feishu_fields_of_record, get_text, get_timestamp_from_field,
        get_optional_timestamp, lookupField, JsonValue.as_str, List.find?,
        hca1, hca2, hua1, hua2, ht1, ht2]

theorem c5_witness :
    (1000000 : Int) ∣ sampleLocal.created_at
    ∧ parse_record_from_feishu (feishuItem "rec9" (feishu_fields_of_record sampleLocal))
        = .ok { sampleLocal with record_id := some "rec9" } := by
  refine ⟨⟨2, by decide⟩, ?_⟩
  exact c5_roundtrip_amended sampleLocal "rec9" ⟨2, by decide⟩ ⟨2, by decide⟩
    (fun t ht => by simp [sampleLocal] at ht)
    ⟨by decide, by decide⟩ ⟨by decide, by decide⟩
    (fun t ht => by simp [sampleLocal] at ht)

/-- Rust enum `FeishuSyncError`; the wrapped foreign errors (`reqwest`,
`std::io`, `serde_json`) are carried as their display strings. -/
inductive FeishuSyncError where
  | NetworkError (s : String)
  | ConfigError (s : String)
  | JsonError (s : String)
  | FeishuApiError (code : Int) (msg : String)
  | UrlParseError (s : String)
deriving DecidableEq, Repr

/-- The `Display` implementation derived by `thiserror` for `FeishuSyncError`. -/
def feishuErrorMessage : FeishuSyncError → String
  | .NetworkError s => "网络请求失败: " ++ s
  | .ConfigError s => "配置文件操作失败: " ++ s
  | .JsonError s => "JSON序列化/反序列化失败: " ++ s
  | .FeishuApiError code msg => "飞书API错误: " ++ toString code ++ " - " ++ msg
  | .UrlParseError s => "URL解析失败: " ++ s

/-- Rust struct `RecordsResponse` (one page of the list endpoint). -/
structure RecordsResponse where
  items : List JsonValue
  has_more : Bool
  page_token : Option String

/-- Rust struct `FeishuApiResponse<T>`. -/
structure FeishuApiResponse (T : Type) where
  code : Int
  msg : String
  data : Option T

/-- The query parameters `list_all_records` puts on one page request. -/
structure ListRequest where
  page_size : Nat
  page_token : Option String
deriving DecidableEq, Repr

/-- The curated error-message table in `list_all_records` for a non-zero
response code. -/
def listRecordsErrMsg (code : Int) (msg : String) : String :=
  if code = 99991672 then
    "应用权限不足。请前往飞书开放平台为应用开通多维表格权限：\n需要权限: bitable:app:readonly 或 bitable:app 或 base:record:retrieve"
  else if code = 1254032 then
    "应用无权访问此多维表格，请检查应用是否已添加到对应工作空间并有相应权限"
  else if code = 1254051 then
    "多维表格不存在或已删除，请检查URL中的app_token是否正确"
  else if code = 1254010 then
    "数据表不存在，请检查URL中的table参数是否正确"
  else
    "多维表格API调用失败: " ++ toString code ++ " - " ++ msg

/-- The loop of `list_all_records`.  The i-th element of `responses` is the
(parsed) body the server returns to the i-th request; running out of
responses models a transport failure.  Returns the result together with the
requests issued, in order. -/
def list_all_go :
    Option String → List (FeishuApiResponse RecordsResponse) →
      Except FeishuSyncError (List PromptRecord) × List ListRequest
  | page_token, [] => (.error (.NetworkError "无响应"), [⟨500, page_token⟩])
  | page_token, resp :: rest =>
    let req : ListRequest := ⟨500, page_token⟩
    if resp.code ≠ 0 then
      (.error (.FeishuApiError resp.code (listRecordsErrMsg resp.code resp.msg)), [req])
    else
      match resp.data with
      | none => (.error (.FeishuApiError (-1) "API响应数据为空"), [req])
      | some data =>
        let page_records := data.items.filterMap
          (fun item => (parse_record_from_feishu item).toOption)
        if data.has_more then
          let next := list_all_go data.page_token rest
          (next.1.map (fun tail => page_records ++ tail), req :: next.2)
        else
          (.ok page_records, [req])

/-- Rust `list_all_records` (first request carries no `page_token`). -/
def list_all_records (responses : List (FeishuApiResponse RecordsResponse)) :
    Except FeishuSyncError (List PromptRecord) :=
  (list_all_go none responses).1

/-- The requests `list_all_records` issues. -/
def list_all_requests (responses : List (FeishuApiResponse RecordsResponse)) :
    List ListRequest :=
  (list_all_go none responses).2

/-- C7: over three pages, the first two declaring `has_more`, the reader
issues exactly three requests — each with page size 500, the first without a
page token and each later one carrying the token returned by the previous
page — and returns the decodable items of all pages concatenated; dropping an
undecodable item from one page leaves the contribution of the other pages
untouched. -/
theorem c7_pagination :
    (∀ (items1 items2 items3 : List JsonValue) (msg1 msg2 msg3 : String)
        (t2 t3 : String) (pt3 : Option String),
      list_all_records
          [⟨0, msg1, some ⟨items1, true, some t2⟩⟩,
           ⟨0, msg2, some ⟨items2, true, some t3⟩⟩,
           ⟨0, msg3, some ⟨items3, false, pt3⟩⟩]
        = .ok (items1.filterMap (fun item => (parse_record_from_feishu item).toOption)
            ++ items2.filterMap (fun item => (parse_record_from_feishu item).toOption)
            ++ items3.filterMap (fun item => (parse_record_from_feishu item).toOption))
      ∧ list_all_requests
          [⟨0, msg1, some ⟨items1, true, some t2⟩⟩,
           ⟨0, msg2, some ⟨items2, true, some t3⟩⟩,
           ⟨0, msg3, some ⟨items3, false, pt3⟩⟩]
        = [⟨500, none⟩, ⟨500, some t2⟩, ⟨500, some t3⟩])
    ∧ (∀ (item : JsonValue) (rest : List JsonValue),
      (parse_record_from_feishu item).toOption = none →
      (item :: rest).filterMap (fun it => (parse_record_from_feishu it).toOption)
        = rest.filterMap (fun it => (parse_record_from_feishu it).toOption)) := by
  constructor
  · intro items1 items2 items3 msg1 msg2 msg3 t2 t3 pt3
    constructor
    · simp [list_all_records, list_all_go, Except.map, List.append_assoc]
    · simp [list_all_requests, list_all_go]
  · intro item rest h
    simp [List.filterMap_cons, h]

theorem c7_witness :
    (JsonValue.null :: [feishuItem "r1" [("id", .str "a"), ("createdAt", .num 1), ("updatedAt", .num 2)]]).filterMap
        (fun it => (parse_record_from_feishu it).toOption)
      = [feishuItem "r1" [("id", .str "a"), ("createdAt", .num 1), ("updatedAt", .num 2)]].filterMap
        (fun it => (parse_record_from_feishu it).toOption) :=
  c7_pagination.2 JsonValue.null
    [feishuItem "r1" [("id", .str "a"), ("createdAt", .num 1), ("updatedAt", .num 2)]] rfl

/-! ### C9: every decoded remote record carries a `record_id` -/

theorem except_toOption_eq_some {ε α : Type} {e : Except ε α} {a : α}
    (h : e.toOption = some a) : e = .ok a := by
  cases e with
  | ok b => simp [Except.toOption] at h; rw [h]
  | error err => simp [Except.toOption] at h

theorem parse_record_id_isSome {item : JsonValue} {r : PromptRecord}
    (h : parse_record_from_feishu item = .ok r) : r.record_id.isSome = true := by
  rw [parse_record_from_feishu] at h
  split at h
  · exact absurd h (by simp)
  · split at h
    · exact absurd h (by simp)
    · rw [parse_fields] at h
      split at h
      · exact absurd h (by simp)
      · split at h
        · exact absurd h (by simp)
        · split at h
          · exact absurd h (by simp)
          · injection h with h
            subst h
            rfl

theorem list_all_go_record_id {page_token : Option String}
    {responses : List (FeishuApiResponse RecordsResponse)}
    {recs : List PromptRecord}
    (h : (list_all_go page_token responses).1 = .ok recs) :
    ∀ r ∈ recs, r.record_id.isSome = true := by
  induction responses generalizing page_token recs with
  | nil => simp [list_all_go] at h
  | cons resp rest ih =>
    rw [list_all_go] at h
    split at h
    · simp at h
    · split at h
      · simp at h
      · rename_i data _
        split at h
        · simp only at h
          cases hnext : (list_all_go data.page_token rest).1 with
          | error e => rw [hnext] at h; simp [Except.map] at h
          | ok tail =>
            rw [hnext] at h
            simp only [Except.map] at h
            injection h with h
            subst h
            intro r hr
            rcases List.mem_append.mp hr with hr | hr
            · obtain ⟨item, _, hit⟩ := List.mem_filterMap.mp hr
              exact parse_record_id_isSome (except_toOption_eq_some hit)
            · exact ih hnext r hr
        · simp only at h
          injection h with h
          subst h
          intro r hr
          obtain ⟨item, _, hit⟩ := List.mem_filterMap.mp hr
          exact parse_record_id_isSome (except_toOption_eq_some hit)

/-- C9: any record list successfully produced by the paginated reader has a
present `record_id` on every record (the decoder rejects items without one),
so the logged skip branch of the planner — a matched remote record lacking a
`record_id` — can never fire on reader output. -/
theorem c9_reader_records_have_remote_key
    (responses : List (FeishuApiResponse RecordsResponse))
    (remote_records : List PromptRecord)
    (h : list_all_records responses = .ok remote_records) :
    (∀ r ∈ remote_records, r.record_id.isSome = true)
    ∧ (∀ local_records, calculate_sync_skips local_records remote_records = []) := by
  have hkeys : ∀ r ∈ remote_records, r.record_id.isSome = true :=
    list_all_go_record_id h
  refine ⟨hkeys, ?_⟩
  intro local_records
  rw [calculate_sync_skips, syncPass1_skips]
  rw [List.filterMap_eq_nil_iff]
  intro l _
  cases hcl : lookupLast remote_records l.id with
  | none => simp
  | some r =>
    have hr := hkeys r (mem_of_lookupLast hcl).1
    cases hk : r.record_id with
    | none => rw [hk] at hr; simp at hr
    | some k =>
      by_cases hu : r.updated_at < l.updated_at <;> simp [hu, hk]

theorem c9_witness :
    list_all_records
        [⟨0, "success", some ⟨[feishuItem "rec1" [("id", .str "a"), ("createdAt", .num 1), ("updatedAt", .num 2)]], false, none⟩⟩]
      = .ok [{ id := "a", title := "未命名", content := "", tags := "[]", is_favorite := false,
               created_at := 1000000, updated_at := 2000000, last_used := none,
               record_id := some "rec1" }]
    ∧ calculate_sync_skips [sampleLocal]
        [{ id := "a", title := "未命名", content := "", tags := "[]", is_favorite := false,
           created_at := 1000000, updated_at := 2000000, last_used := none,
           record_id := some "rec1" }] = [] := by
  refine ⟨rfl, ?_⟩
  exact (c9_reader_records_have_remote_key
    [⟨0, "success", some ⟨[feishuItem "rec1" [("id", .str "a"), ("createdAt", .num 1), ("updatedAt", .num 2)]], false, none⟩⟩]
    _ rfl).2 [sampleLocal]

/-! ### Token acquisition: `get_tenant_access_token` -/

/-- The final step of `get_tenant_access_token`: deserializing the body as
`TenantTokenApiResponse` (`tenant_access_token` string and `expire` integer;
either missing or mistyped makes serde fail, carried as a `JsonError`). -/
def tenant_token_payload (body : JsonValue) : Except FeishuSyncError String :=
  match (body.get "tenant_access_token").bind JsonValue.as_str,
        (body.get "expire").bind JsonValue.as_i64 with
  | some tenant_access_token, some _expire => .ok tenant_access_token
  | _, _ => .error (.JsonError "无法解析访问令牌响应")

/-- The Rust `as i32` wrapping cast from an `i64` value. -/
def wrapToI32 (n : Int) : Int := (n + 2147483648) % 4294967296 - 2147483648

/-- Rust `get_tenant_access_token`, applied to the parsed JSON body the auth
endpoint returned: the error-code check comes before any attempt to decode
the body as a token payload.  The message is selected and interpolated from
the `i64` code; the code stored in the error is the `code as i32` wrap of
it. -/
def get_tenant_access_token (body : JsonValue) : Except FeishuSyncError String :=
  match (body.get "code").bind JsonValue.as_i64 with
  | some code =>
    if code ≠ 0 then
      let msg := ((body.get "msg").bind JsonValue.as_str).getD "未知错误"
      let error_msg :=
        if code = 10014 then "App Secret 无效，请检查飞书应用配置中的 App Secret 是否正确"
        else if code = 10013 then "App ID 无效，请检查飞书应用配置中的 App ID 是否正确"
        else if code = 99991663 then "租户访问令牌无效"
        else if code = 99991664 then "租户访问令牌过期"
        else "飞书API错误 (代码: " ++ toString code ++ "): " ++ msg
      .error (.FeishuApiError (wrapToI32 code) error_msg)
    else tenant_token_payload body
  | none => tenant_token_payload body

/-- C8: a response body whose `code` field is a non-zero integer is never
decoded as a token; it always fails with that code (wrapped to `i32` as the
Rust cast does), with the curated message for 10014 (invalid app secret),
10013 (invalid app id), 99991663 (token invalid) and 99991664 (token
expired), and with the generic message carrying the numeric `i64` code for
any other non-zero code. -/
theorem c8_token_error_code_mapping (body : JsonValue) :
    (∀ code, (body.get "code").bind JsonValue.as_i64 = some code → code ≠ 0 →
      ∃ m, get_tenant_access_token body = .error (.FeishuApiError (wrapToI32 code) m))
    ∧ ((body.get "code").bind JsonValue.as_i64 = some 10014 →
      get_tenant_access_token body
        = .error (.FeishuApiError 10014
            "App Secret 无效，请检查飞书应用配置中的 App Secret 是否正确"))
    ∧ ((body.get "code").bind JsonValue.as_i64 = some 10013 →
      get_tenant_access_token body
        = .error (.FeishuApiError 10013
            "App ID 无效，请检查飞书应用配置中的 App ID 是否正确"))
    ∧ ((body.get "code").bind JsonValue.as_i64 = some 99991663 →
      get_tenant_access_token body = .error (.FeishuApiError 99991663 "租户访问令牌无效"))
    ∧ ((body.get "code").bind JsonValue.as_i64 = some 99991664 →
      get_tenant_access_token body = .error (.FeishuApiError 99991664 "租户访问令牌过期"))
    ∧ (∀ code, (body.get "code").bind JsonValue.as_i64 = some code →
      code ≠ 0 → code ≠ 10014 → code ≠ 10013 → code ≠ 99991663 → code ≠ 99991664 →
      get_tenant_access_token body
        = .error (.FeishuApiError (wrapToI32 code)
            ("飞书API错误 (代码: " ++ toString code ++ "): "
              ++ (((body.get "msg").bind JsonValue.as_str).getD "未知错误")))) := by
  have w14 : wrapToI32 10014 = 10014 := by decide
  have w13 : wrapToI32 10013 = 10013 := by decide
  have w63 : wrapToI32 99991663 = 99991663 := by decide
  have w64 : wrapToI32 99991664 = 99991664 := by decide
  refine ⟨?_, ?_, ?_, ?_, ?_, ?_⟩
  · intro code h hc
    refine ⟨if code = 10014 then "App Secret 无效，请检查飞书应用配置中的 App Secret 是否正确"
      else if code = 10013 then "App ID 无效，请检查飞书应用配置中的 App ID 是否正确"
      else if code = 99991663 then "租户访问令牌无效"
      else if code = 99991664 then "租户访问令牌过期"
      else "飞书API错误 (代码: " ++ toString code ++ "): "
        ++ ((body.get "msg").bind JsonValue.as_str).getD "未知错误", ?_⟩
    simp [get_tenant_access_token, h, hc]
  · intro h
    simp [get_tenant_access_token, h, w14]
  · intro h
    simp [get_tenant_access_token, h, w13]
  · intro h
    simp [get_tenant_access_token, h, w63]
  · intro h
    simp [get_tenant_access_token, h, w64]
  · intro code h hc h1 h2 h3 h4
    simp [get_tenant_access_token, h, hc, h1, h2, h3, h4]

theorem c8_witness :
    get_tenant_access_token (.obj [("code", .num 10014), ("msg", .str "app secret invalid")])
      = .error (.FeishuApiError 10014
          "App Secret 无效，请检查飞书应用配置中的 App Secret 是否正确") :=
  (c8_token_error_code_mapping
    (.obj [("code", .num 10014), ("msg", .str "app secret invalid")])).2.1 rfl

/-! ### Table-reference parsing: `parse_feishu_base_url` -/

/-- Rust `str::split(sep)` on the character list of a string (used instead of
`String.splitOn` so that terms evaluate by reduction). -/
def splitOnChar (sep : Char) : List Char → List (List Char)
  | [] => [[]]
  | c :: cs =>
    if c == sep then [] :: splitOnChar sep cs
    else
      match splitOnChar sep cs with
      | [] => [[c]]
      | g :: gs => (c :: g) :: gs

/-- The loop of `parse_feishu_base_url`: the first path segment equal to
"base" or "wiki" that has a successor yields that successor; a trailing
"base"/"wiki" with no successor does not match. -/
def findContainerSegment : List (List Char) → Option (List Char)
  | [] => none
  | [_] => none
  | p :: q :: rest =>
    if p == "base".data || p == "wiki".data then some q
    else findContainerSegment (q :: rest)

/-- Rust `parse_feishu_base_url`, working on the character list of the URL.
Byte-index slicing at the first `?` / `=` is rendered with
`takeWhile`/`dropWhile`, which cut at the same character boundary. -/
def parse_feishu_base_url (url : String) : Except FeishuSyncError (String × String) :=
  let url_parts := splitOnChar '/' url.data
  let parsed : Option (List Char) × Option (List Char) :=
    match findContainerSegment url_parts with
    | none => (none, none)
    | some content_part =>
      if content_part.contains '?' then
        let app_token := content_part.takeWhile (fun c => c != '?')
        let query_string := (content_part.dropWhile (fun c => c != '?')).drop 1
        let table_id := (splitOnChar '&' query_string).foldl
          (fun acc param =>
            if param.contains '=' then
              let key := param.takeWhile (fun c => c != '=')
              let value := (param.dropWhile (fun c => c != '=')).drop 1
              if key == "table".data then some value else acc
            else acc)
          none
        (some app_token, table_id)
      else
        (some content_part, none)
  match parsed.1 with
  | none => .error (.UrlParseError "无法从URL中提取app_token，请确保URL包含/base/或/wiki/路径")
  | some app_token =>
    match parsed.2 with
    | none => .error (.UrlParseError "无法从URL中提取table_id，请确保URL包含?table=参数")
    | some table_id => .ok (String.mk app_token, String.mk table_id)

/-- C10: the URL parser accepts a path whose segment after "base" starts with
`?` and returns the empty string as the container id together with the table
id, rather than failing. -/
theorem c10_empty_container_id :
    parse_feishu_base_url "https://example.feishu.cn/base/?table=tbl123"
      = .ok ("", "tbl123") := by
  rfl

/-! ### Orchestrators: `perform_sync`, `trigger_sync`, `sync_with_local_data`

Network and filesystem effects are supplied as oracle arguments: the outcome
of configuration loading, of token acquisition, the successive list-endpoint
response bodies, and the outcomes of the two remote-write calls.  The u32
counters of `SyncResult` are modelled as naturals (every assigned value is a
list length or a response record count). -/

/-- Rust struct `FeishuConfig`. -/
structure FeishuConfig where
  app_id : String
  app_secret : String
  base_url : String
  app_token : String
  table_id : String
  enabled : Bool
deriving DecidableEq, Repr

/-- Rust struct `SyncResult`. -/
structure SyncResult where
  success : Bool
  message : String
  local_created : Nat
  local_updated : Nat
  remote_created : Nat
  remote_updated : Nat
  total_processed : Nat
deriving DecidableEq, Repr

/-- The all-zero failure result `trigger_sync` builds when `perform_sync`
fails. -/
def syncFailureResult (msg : String) : SyncResult :=
  { success := false, message := msg, local_created := 0, local_updated := 0
    remote_created := 0, remote_updated := 0, total_processed := 0 }

/-- Rust `perform_sync`: token, remote fetch, plan, then the four apply
stages in order, any failure aborting the rest.  `get_local_prompts`
currently always returns the empty list, and `create_local_prompts` /
`update_local_prompts` cannot fail; the remote-write counts recorded are the
plan-list lengths, not the counts returned by the oracle. -/
def perform_sync (tokenRes : Except FeishuSyncError String)
    (responses : List (FeishuApiResponse RecordsResponse))
    (createRemoteRes updateRemoteRes : Except FeishuSyncError Nat) :
    Except FeishuSyncError SyncResult :=
  match tokenRes with
  | .error e => .error e
  | .ok _access_token =>
    match list_all_records responses with
    | .error e => .error e
    | .ok remote_records =>
      let local_records : List PromptRecord := []
      let plan := calculate_sync_plan local_records remote_records
      match (if plan.to_create_remote.isEmpty then Except.ok 0 else createRemoteRes) with
      | .error e => .error e
      | .ok _ =>
        match (if plan.to_update_remote.isEmpty then Except.ok 0 else updateRemoteRes) with
        | .error e => .error e
        | .ok _ =>
          let remote_created := plan.to_create_remote.length
          let remote_updated := plan.to_update_remote.length
          let local_created := plan.to_create_local.length
          let local_updated := plan.to_update_local.length
          .ok { success := true, message := "同步成功"
                local_created := local_created, local_updated := local_updated
                remote_created := remote_created, remote_updated := remote_updated
                total_processed :=
                  local_created + local_updated + remote_created + remote_updated }

/-- Rust `trigger_sync`: configuration failures are returned as errors, but
any `perform_sync` failure is converted into an `Ok` result with
`success = false`. -/
def trigger_sync (configRes : Except FeishuSyncError (Option FeishuConfig))
    (tokenRes : Except FeishuSyncError String)
    (responses : List (FeishuApiResponse RecordsResponse))
    (createRemoteRes updateRemoteRes : Except FeishuSyncError Nat) :
    Except String SyncResult :=
  match configRes with
  | .error e => .error ("加载配置失败: " ++ feishuErrorMessage e)
  | .ok none => .error "配置未设置"
  | .ok (some config) =>
    if !config.enabled then .error "同步功能已禁用"
    else
      match perform_sync tokenRes responses createRemoteRes updateRemoteRes with
      | .ok result => .ok result
      | .error e => .ok (syncFailureResult ("同步失败: " ++ feishuErrorMessage e))

/-- Rust `sync_with_local_data`: token-acquisition and remote-fetch failures
are propagated as errors; remote-write failures only flip `success` and set
the message, without stopping the remaining stages; local stages are events
to the frontend and cannot fail here. -/
def sync_with_local_data (local_prompts : List PromptRecord)
    (configRes : Except FeishuSyncError (Option FeishuConfig))
    (tokenRes : Except FeishuSyncError String)
    (responses : List (FeishuApiResponse RecordsResponse))
    (createRemoteRes updateRemoteRes : Except FeishuSyncError Nat) :
    Except String SyncResult :=
  match configRes with
  | .error e => .error ("加载配置失败: " ++ feishuErrorMessage e)
  | .ok none => .error "配置未设置"
  | .ok (some config) =>
    if !config.enabled then .error "同步功能已禁用"
    else
      match tokenRes with
      | .error e => .error ("获取访问令牌失败: " ++ feishuErrorMessage e)
      | .ok _access_token =>
        match list_all_records responses with
        | .error e => .error ("获取云端数据失败: " ++ feishuErrorMessage e)
        | .ok remote_records =>
          let plan := calculate_sync_plan local_prompts remote_records
          let afterCreate : Bool × String × Nat :=
            if plan.to_create_remote.isEmpty then (true, "同步成功", 0)
            else
              match createRemoteRes with
              | .ok count => (true, "同步成功", count)
              | .error e => (false, "向云端创建记录失败: " ++ feishuErrorMessage e, 0)
          let afterUpdate : Bool × String × Nat :=
            if plan.to_update_remote.isEmpty then (afterCreate.1, afterCreate.2.1, 0)
            else
              match updateRemoteRes with
              | .ok count => (afterCreate.1, afterCreate.2.1, count)
              | .error e => (false, "向云端更新记录失败: " ++ feishuErrorMessage e, 0)
          let local_created := plan.to_create_local.length
          let local_updated := plan.to_update_local.length
          let remote_created := afterCreate.2.2
          let remote_updated := afterUpdate.2.2
          .ok { success := afterUpdate.1, message := afterUpdate.2.1
                local_created := local_created, local_updated := local_updated
                remote_created := remote_created, remote_updated := remote_updated
                total_processed :=
                  local_created + local_updated + remote_created + remote_updated }

def sampleConfig : FeishuConfig :=
  { app_id := "cli_x", app_secret := "secret", base_url := "https://example.feishu.cn/base/x?table=t"
    app_token := "x", table_id := "t", enabled := true }

/-- C4 counterexample: with the configuration loaded and sync enabled, a
token-acquisition failure makes `sync_with_local_data` return an error value
to its caller instead of a result value with `success = false` — the claim
that every sync invocation converts token-stage failures into a returned
result and never raises an error is false for this orchestrator. -/
theorem c4_counterexample :
    sync_with_local_data [] (.ok (some sampleConfig))
        (.error (.NetworkError "connection timed out")) [] (.ok 0) (.ok 0)
      = .error "获取访问令牌失败: 网络请求失败: connection timed out" := by
  rfl

/-- C4 (amended): `trigger_sync` (once configuration has loaded with sync
enabled) always returns a result value: a failure of `perform_sync` — which a
token failure aborts at once — is converted into a result with
`success = false` and the failure description.  `sync_with_local_data`,
however, propagates token-acquisition and remote-fetch failures as errors to
its caller and converts only the remote-write failures into a
`success = false` result, without aborting the remaining stages. -/
theorem c4_soft_fail_amended
    (config : FeishuConfig) (hen : config.enabled = true)
    (local_prompts : List PromptRecord)
    (tokenRes : Except FeishuSyncError String)
    (responses : List (FeishuApiResponse RecordsResponse))
    (createRemoteRes updateRemoteRes : Except FeishuSyncError Nat) :
    (∃ result, trigger_sync (.ok (some config)) tokenRes responses createRemoteRes updateRemoteRes
        = .ok result
      ∧ (perform_sync tokenRes responses createRemoteRes updateRemoteRes = .ok result
        ∨ ∃ e, perform_sync tokenRes responses createRemoteRes updateRemoteRes = .error e
            ∧ result = syncFailureResult ("同步失败: " ++ feishuErrorMessage e)))
    ∧ (∀ e, tokenRes = .error e →
        perform_sync tokenRes responses createRemoteRes updateRemoteRes = .error e
        ∧ trigger_sync (.ok (some config)) tokenRes responses createRemoteRes updateRemoteRes
            = .ok (syncFailureResult ("同步失败: " ++ feishuErrorMessage e))
        ∧ sync_with_local_data local_prompts (.ok (some config)) tokenRes responses
            createRemoteRes updateRemoteRes
            = .error ("获取访问令牌失败: " ++ feishuErrorMessage e))
    ∧ (∀ e token, tokenRes = .ok token → list_all_records responses = .error e →
        perform_sync tokenRes responses createRemoteRes updateRemoteRes = .error e
        ∧ sync_with_local_data local_prompts (.ok (some config)) tokenRes responses
            createRemoteRes updateRemoteRes
            = .error ("获取云端数据失败: " ++ feishuErrorMessage e))
    ∧ (∀ token remote_records, tokenRes = .ok token →
        list_all_records responses = .ok remote_records →
        ∃ result, sync_with_local_data local_prompts (.ok (some config)) tokenRes responses
            createRemoteRes updateRemoteRes = .ok result
          ∧ (∀ e, createRemoteRes = .error e →
              (calculate_sync_plan local_prompts remote_records).to_create_remote.isEmpty = false →
              result.success = false)
          ∧ (∀ e, updateRemoteRes = .error e →
              (calculate_sync_plan local_prompts remote_records).to_update_remote.isEmpty = false →
              result.success = false
              ∧ result.message = "向云端更新记录失败: " ++ feishuErrorMessage e)) := by
  have henb : (!config.enabled) = false := by rw [hen]; rfl
  refine ⟨?_, ?_, ?_, ?_⟩
  · cases hp : perform_sync tokenRes responses createRemoteRes updateRemoteRes with
    | ok result =>
      exact ⟨result, by simp [trigger_sync, henb, hp], Or.inl rfl⟩
    | error e =>
      exact ⟨syncFailureResult ("同步失败: " ++ feishuErrorMessage e),
        by simp [trigger_sync, henb, hp], Or.inr ⟨e, rfl, rfl⟩⟩
  · intro e htok
    have hperf : perform_sync tokenRes responses createRemoteRes updateRemoteRes = .error e := by
      rw [htok, perform_sync]
    refine ⟨hperf, by simp [trigger_sync, henb, hperf], ?_⟩
    rw [sync_with_local_data.eq_def, htok]
    simp [henb]
  · intro e token htok hfetch
    have hperf : perform_sync tokenRes responses createRemoteRes updateRemoteRes = .error e := by
      rw [htok, perform_sync, hfetch]
    refine ⟨hperf, ?_⟩
    rw [sync_with_local_data.eq_def, htok]
    simp [henb, hfetch]
  · intro token remote_records htok hfetch
    rw [sync_with_local_data.eq_def, htok]
    simp only [henb, Bool.false_eq_true, if_false, hfetch]
    refine ⟨_, rfl, ?_, ?_⟩
    · intro e hce hne
      cases hie : (calculate_sync_plan local_prompts remote_records).to_update_remote.isEmpty <;>
        cases hie2 : updateRemoteRes <;>
          simp [hne, hce, hie, hie2]
    · intro e hue hne
      simp [hne, hue]

theorem c4_witness :
    trigger_sync (.ok (some sampleConfig)) (.error (.NetworkError "timeout")) [] (.ok 0) (.ok 0)
      = .ok (syncFailureResult "同步失败: 网络请求失败: timeout")
    ∧ sync_with_local_data [] (.ok (some sampleConfig)) (.error (.NetworkError "timeout"))
        [] (.ok 0) (.ok 0)
      = .error "获取访问令牌失败: 网络请求失败: timeout" := by
  have h := (c4_soft_fail_amended sampleConfig rfl [] (.error (.NetworkError "timeout"))
    [] (.ok 0) (.ok 0)).2.1 (.NetworkError "timeout") rfl
  exact ⟨h.2.1, h.2.2⟩

end FeishuSync
